import Mathlib

/-!
Shallow embedding of `src/app.js`, a small Node.js HTTP "color server".

The server keeps a hardcoded color registry, serves `/`, `/color`,
`/get-colors` and `/get-animal` on GET, answers 405 to other methods,
and reads `files/animals.json` on each `/get-animal` request.

Strings are Lean `String`s; JavaScript's `toLowerCase`, `trim`,
`String(...)` coercion and truthiness are modelled explicitly below.
The one source of nondeterminism, `Math.random()` inside
`getRandomColor`, is modelled by passing the chosen index explicitly.
-/

/-! ## JavaScript string primitives -/

/-- Code points removed by ECMAScript `String.prototype.trim`
(WhiteSpace and LineTerminator). -/
def wsCodes : List Nat :=
  [0x9, 0xA, 0xB, 0xC, 0xD, 0x20, 0xA0, 0x1680,
   0x2000, 0x2001, 0x2002, 0x2003, 0x2004, 0x2005, 0x2006, 0x2007,
   0x2008, 0x2009, 0x200A, 0x2028, 0x2029, 0x202F, 0x205F, 0x3000, 0xFEFF]

/-- Whether `trim` strips this character. -/
def isJsWs (c : Char) : Bool := decide (c.toNat ∈ wsCodes)

/-- Model of `String.prototype.toLowerCase` on one character; the registry and the
query strings of interest are ASCII, where lowering maps exactly
`A`-`Z` (code 65-90) to `a`-`z` (code 97-122). -/
def jsToLowerChar (c : Char) : Char :=
  if 65 ≤ c.toNat ∧ c.toNat ≤ 90 then Char.ofNat (c.toNat + 32) else c

/-- Model of `String.prototype.toLowerCase`. -/
def jsToLower (s : String) : String := String.mk (s.toList.map jsToLowerChar)

/-- Model of `String.prototype.trim`: drop leading and trailing whitespace. -/
def jsTrim (s : String) : String :=
  String.mk (((s.toList.dropWhile isJsWs).reverse.dropWhile isJsWs).reverse)

/-- From `app.js` line 28: case-insensitive string equality
`(a, b) => String(a).toLowerCase() === String(b).toLowerCase()`
(callers pass the `String(...)` coercion explicitly). -/
def eqCi (a b : String) : Bool := jsToLower a == jsToLower b

/-! ## JSON values (`JSON.parse` results) -/

/-- A parsed JSON value, as `JSON.parse` produces
(numbers in `animals.json` are modelled as integers). -/
inductive Json where
  | null : Json
  | bool (b : Bool) : Json
  | num (n : Int) : Json
  | str (s : String) : Json
  | arr (elems : List Json) : Json
  | obj (fields : List (String × Json)) : Json
deriving Repr

/-- Model of `Array.isArray`. -/
def Json.isArr : Json → Bool
  | .arr _ => true
  | _ => false

/-- JavaScript truthiness of a parsed JSON value. -/
def jsTruthy : Json → Bool
  | .null => false
  | .bool b => b
  | .num n => n != 0
  | .str s => s != ""
  | .arr _ => true
  | .obj _ => true

/-- Property lookup on a parsed JSON object: with duplicate keys,
`JSON.parse` keeps the last occurrence. -/
def objGet (fields : List (String × Json)) (k : String) : Option Json :=
  fields.foldl (fun acc kv => if kv.1 = k then some kv.2 else acc) none

/-- Optional-chaining `a?.k` property access on a parsed JSON value: only objects carry the
record properties; on primitives and arrays the `variant` / `animalName` /
`urlImage` properties are `undefined` (here `none`). -/
def jsGetProp : Json → String → Option Json
  | .obj fs, k => objGet fs k
  | _, _ => none

mutual

/-- Model of the `String(v)` coercion of a parsed JSON value. -/
def jsString : Json → String
  | .null => "null"
  | .bool b => if b then "true" else "false"
  | .num n => toString n
  | .str s => s
  | .arr l => jsArrJoin l
  | .obj _ => "[object Object]"

/-- Model of `Array.prototype.toString`, i.e. `join(",")`: elements are
`String(...)`-coerced, except `null`, which joins as the empty
string. -/
def jsArrJoin : List Json → String
  | [] => ""
  | [.null] => ""
  | [e] => jsString e
  | .null :: e2 :: es => "," ++ jsArrJoin (e2 :: es)
  | e :: e2 :: es => jsString e ++ "," ++ jsArrJoin (e2 :: es)

end

/-- Interpolation `${v}` in a template literal of a possibly-`undefined`
property access: `undefined` interpolates as the string `undefined`. -/
def tmplOpt : Option Json → String
  | none => "undefined"
  | some j => jsString j

/-! ## Color registry (`app.js` lines 6-22, 31) -/

/-- One registry entry. -/
structure Color where
  variant : String
  hex : String
deriving Repr, DecidableEq

/-- The hardcoded color registry, in declaration order. -/
def colors : List Color :=
  [⟨"Vermillion", "#2E191B"⟩,
   ⟨"Forest", "#0B6623"⟩,
   ⟨"Navy", "#000080"⟩,
   ⟨"Crimson", "#DC143C"⟩,
   ⟨"Sky Blue", "#87CEEB"⟩,
   ⟨"Lime", "#00FF00"⟩,
   ⟨"Gold", "#FFD700"⟩,
   ⟨"Lavender", "#E6E6FA"⟩,
   ⟨"Tangerine", "#F28500"⟩,
   ⟨"Magenta", "#FF00FF"⟩,
   ⟨"Cyan", "#00FFFF"⟩,
   ⟨"Olive", "#808000"⟩,
   ⟨"Teal", "#008080"⟩,
   ⟨"Maroon", "#800000"⟩,
   ⟨"Coral", "#FF7F50"⟩]

/-- Model of `getRandomColor`: `colors[Math.floor(Math.random() * colors.length)]`.
`Math.random()` ranges over `[0, 1)`, so the floored index ranges over
`Fin colors.length`; the draw is passed in explicitly. -/
def getRandomColor (r : Fin colors.length) : Color := colors.get r

/-! ## Animal lookup (`app.js` lines 70-76) -/

/-- Outcome of `fs.readFile` + `JSON.parse` on `files/animals.json`:
the read may reject, the parse may throw, or a JSON value comes back. -/
inductive FileOutcome where
  | readError (msg : String) : FileOutcome
  | parseError (msg : String) : FileOutcome
  | parsed (j : Json) : FileOutcome

/-- The `find` predicate `a => a?.variant && eqCi(a.variant, variant)`:
the `variant` property must exist and be truthy, and its `String(...)`
coercion must equal the query case-insensitively. -/
def matchesVariant (v : String) (a : Json) : Bool :=
  match jsGetProp a "variant" with
  | none => false
  | some jv => jsTruthy jv && eqCi (jsString jv) v

/-- Model of `findAnimalByVariant`: reject propagates as an error (caught by the
route's `try`/`catch`); a non-array parse returns `undefined` (`none`);
otherwise the first case-insensitive `variant` match is returned. -/
def findAnimalByVariant (file : FileOutcome) (variant : String) :
    Except String (Option Json) :=
  match file with
  | .readError msg => .error msg
  | .parseError msg => .error msg
  | .parsed j =>
    if !j.isArr then .ok none
    else match j with
      | .arr animals => .ok (animals.find? (matchesVariant variant))
      | _ => .ok none

/-! ## Query parameter model (`url.parse(req.url, true)`) -/

/-- The `variant` entry of the parsed query string: absent, a single
decoded string, or (for a repeated key) an array of decoded strings. -/
inductive QueryVal where
  | absent : QueryVal
  | one (s : String) : QueryVal
  | many (vs : List String) : QueryVal

/-- Evaluation of `query?.variant != null ? String(query.variant) : ...`: the raw value
if present, with an array coerced by `Array.prototype.toString`
(comma-join). -/
def queryToRaw : QueryVal → Option String
  | .absent => none
  | .one s => some s
  | .many vs => some (String.intercalate "," vs)

/-- From `app.js` lines 109 and 153:
`query?.variant != null ? String(query.variant).trim() : ''`. -/
def normalizeVariant (q : QueryVal) : String :=
  match queryToRaw q with
  | none => ""
  | some s => jsTrim s

/-! ## Responses and page templates -/

/-- What the server writes back: status, `Content-Type` header, body. -/
structure Response where
  status : Nat
  contentType : String
  body : String
deriving Repr, DecidableEq

/-- Model of `sendHtml` (status defaults to 200 at call sites that omit it). -/
def sendHtml (html : String) (status : Nat) : Response :=
  ⟨status, "text/html; charset=utf-8", html⟩

/-- Model of `sendText`. -/
def sendText (text : String) (status : Nat) : Response :=
  ⟨status, "text/plain; charset=utf-8", text⟩

/-- The `page` template up to the `${title}` slot. -/
def pageHead : String :=
"<!doctype html>
  <html lang=\"es\">
    <head>
      <meta charset=\"utf-8\" />
      <title>"

/-- The `page` template between the `${title}` and `${body}` slots. -/
def pageMid : String :=
"</title>
      <meta name=\"viewport\" content=\"width=device-width, initial-scale=1\" />
      <style>
        :root\x7bcolor-scheme: light dark\x7d
        body\x7bfont-family: ui-sans-serif, system-ui, -apple-system, Segoe UI, Roboto, Ubuntu, Cantarell, Noto Sans, Arial; margin:2rem; line-height:1.55;\x7d
        a\x7bcolor:#0F52BA; text-decoration:none\x7d
        a:hover\x7btext-decoration:underline\x7d
        ul\x7bpadding-left:1.2rem\x7d
        code,kbd\x7bbackground:#0001; padding:.15rem .35rem; border-radius:4px\x7d
        .muted\x7bcolor:#0008\x7d
        .swatch\x7bdisplay:inline-block; width:1.1rem; height:1.1rem; border-radius:4px; vertical-align:middle; margin-right:.5rem; border:1px solid #0001;\x7d
        img\x7bmax-width:100%; height:auto; border-radius:8px; box-shadow:0 2px 10px #0002\x7d
      </style>
    </head>
    <body>"

/-- The `page` template after the `${body}` slot. -/
def pageTail : String :=
"</body>
  </html>"

/-- Model of `page({ title, body })`: the shared HTML page shell. -/
def page (title body : String) : String :=
  pageHead ++ title ++ pageMid ++ body ++ pageTail

/-! ## Route bodies (`app.js` lines 88-208) -/

/-- The `/` welcome page body. -/
def rootBody : String :=
"
          <h1>👋 Bienvenidos al servidor de colores de NetMind</h1>
          <p>Rutas disponibles:</p>
          <ul>
            <li><code>/color</code> — Devuelve el <strong>primer</strong> color del array (texto plano).</li>
            <li><code>/color?variant=Vermillion</code> — Devuelve el color indicado; si no existe, uno <em>aleatorio</em>.</li>
            <li><code>/get-colors</code> — Lista HTML de colores (clicables).</li>
            <li><code>/get-animal?variant=Vermillion</code> — Imagen de un animal relacionado con el color.</li>
          </ul>
        "

/-- The `/color` HTML fragment `<p style="color:HEX">HEX</p>`. -/
def colorFragment (hex : String) : String :=
  "<p style=\"color:" ++ hex ++ "\">" ++ hex ++ "</p>"

/-- The hex digit `encodeURIComponent` uses (uppercase). -/
def hexDigitUpper (d : Nat) : Char :=
  if d < 10 then Char.ofNat (48 + d) else Char.ofNat (55 + d)

/-- The UTF-8 bytes of a code point, as numbers. -/
def utf8Bytes (n : Nat) : List Nat :=
  if n < 0x80 then [n]
  else if n < 0x800 then [0xC0 + n / 0x40, 0x80 + n % 0x40]
  else if n < 0x10000 then
    [0xE0 + n / 0x1000, 0x80 + n / 0x40 % 0x40, 0x80 + n % 0x40]
  else
    [0xF0 + n / 0x40000, 0x80 + n / 0x1000 % 0x40, 0x80 + n / 0x40 % 0x40,
     0x80 + n % 0x40]

/-- Characters `encodeURIComponent` leaves unescaped. -/
def uriUnreserved (c : Char) : Bool :=
  c.isAlpha || c.isDigit ||
    [45, 95, 46, 33, 126, 42, 39, 40, 41].contains c.toNat

/-- Model of `encodeURIComponent`: percent-encode the UTF-8 bytes of every
reserved character. -/
def encodeURIComponent (s : String) : String :=
  String.mk (s.toList.flatMap fun c =>
    if uriUnreserved c then [c]
    else (utf8Bytes c.toNat).flatMap fun b =>
      [Char.ofNat 37, hexDigitUpper (b / 16), hexDigitUpper (b % 16)])

/-- One `<li>` of the `/get-colors` list. -/
def getColorsItem (c : Color) : String :=
  "<li>
                <a href=\"/color?variant=" ++ encodeURIComponent c.variant ++ "\">
                  <span class=\"swatch\" style=\"background:" ++ c.hex ++ "\"></span>" ++ c.variant ++ "
                  <span class=\"muted\">" ++ c.hex ++ "</span>
                </a>
                &nbsp;— <a class=\"muted\" href=\"/get-animal?variant=" ++ encodeURIComponent c.variant ++ "\">ver animal</a>
              </li>"

/-- The `/get-colors` page body. -/
def getColorsBody : String :=
  "
            <h1>Colores disponibles</h1>
            <p>Haz clic en un color para solicitarlo al servidor.</p>
            <ul>" ++ String.intercalate "\n" (colors.map getColorsItem) ++ "</ul>
            <p class=\"muted\">También puedes usar <kbd>/color</kbd> o <kbd>/color?variant=Vermillion</kbd>.</p>
            <p><a href=\"/\">Volver</a></p>
            "

/-- The `/get-animal` 400 page body (missing `variant`). -/
def missingVariantBody : String :=
  "
                <h1>Falta el parámetro <code>variant</code></h1>
                <p>Ejemplo: <code>/get-animal?variant=Vermillion</code></p>
                <p><a href=\"/\">Volver</a></p>"

/-- The `/get-animal` 404 page body, interpolating the trimmed variant. -/
def animalNotFoundBody (variant : String) : String :=
  "
                    <h1>Animal no encontrado para <code>" ++ variant ++ "</code></h1>
                    <p>Prueba con otra variante desde <a href=\"/get-colors\">la lista de colores</a>.</p>
                    <p><a href=\"/\">Volver</a></p>"

/-- The `/get-animal` success title
`${animal.animalName} (${animal.variant})`. -/
def animalTitle (animal : Json) : String :=
  tmplOpt (jsGetProp animal "animalName") ++ " (" ++
    tmplOpt (jsGetProp animal "variant") ++ ")"

/-- The `/get-animal` success page body. -/
def animalSuccessBody (animal : Json) : String :=
  "
                <h1>" ++ tmplOpt (jsGetProp animal "animalName") ++
    " <small class=\"muted\">(" ++ tmplOpt (jsGetProp animal "variant") ++ ")</small></h1>
                <p><img width=\"300\" src=\"" ++ tmplOpt (jsGetProp animal "urlImage") ++
    "\" alt=\"" ++ tmplOpt (jsGetProp animal "animalName") ++ "\"></p>
                <p><a href=\"/\">Volver</a></p>"

/-- The `/get-animal` 500 page body, echoing the error message. -/
def animalErrorBody (msg : String) : String :=
  "<h1>Error cargando <code>files/animals.json</code></h1>
                       <pre class=\"muted\">" ++ msg ++ "</pre>
                       <p><a href=\"/\">Volver</a></p>"

/-- The fallback 404 page body. -/
def fallbackBody : String :=
  "
        <h1>404 - Ruta no encontrada</h1>
        <p><a href=\"/\">Volver</a></p>"

/-! ## The request handler (`app.js` lines 79-209) -/

/-- An inbound request: HTTP method, parsed `pathname`, and the
`variant` query entry (the only one any route reads). -/
structure Request where
  method : String
  pathname : String
  variantQ : QueryVal

/-- The `http.createServer` callback. `file` is what this request's
read of `files/animals.json` yields; `r` is this request's
`Math.random()` draw, already floored to an index. -/
def handle (req : Request) (file : FileOutcome) (r : Fin colors.length) :
    Response :=
  if req.method ≠ "GET" then
    sendText "Method Not Allowed" 405
  else if req.pathname = "/" then
    sendHtml (page "Bienvenidos" rootBody) 200
  else if req.pathname = "/color" then
    let variant := normalizeVariant req.variantQ
    if variant ≠ "" then
      let chosen :=
        match colors.find? (fun c => eqCi c.variant variant) with
        | some found => found
        | none => getRandomColor r
      sendHtml (colorFragment chosen.hex) 200
    else
      sendHtml (colorFragment (getRandomColor r).hex) 200
  else if req.pathname = "/get-colors" then
    sendHtml (page "Colores disponibles" getColorsBody) 200
  else if req.pathname = "/get-animal" then
    let variant := normalizeVariant req.variantQ
    if variant = "" then
      sendHtml (page "Falta parámetro" missingVariantBody) 400
    else
      match findAnimalByVariant file variant with
      | .error msg => sendHtml (page "Error del servidor" (animalErrorBody msg)) 500
      | .ok none => sendHtml (page "No encontrado" (animalNotFoundBody variant)) 404
      | .ok (some animal) =>
        sendHtml (page (animalTitle animal) (animalSuccessBody animal)) 200
  else
    sendHtml (page "404" fallbackBody) 404

/-! ## Derived definitions used by the statements -/

/-- Substring occurrence: `t` occurs contiguously inside `s`. -/
def containsSub (s t : String) : Prop :=
  ∃ pre post, s = pre ++ t ++ post

/-- Rendering of one success-page slot as the spec describes it
("absent fields produce empty-string rendering"): an absent property
renders as the empty string. Spec-side definition, to be compared with
the source-side `tmplOpt`. -/
def tmplOptSpecEmpty : Option Json → String
  | none => ""
  | some j => jsString j

/-- The success page as the spec describes it for records with missing
fields: same shell and slots, absent fields rendered empty. Spec-side
definition, to be compared with the handler's body. -/
def animalSuccessPageSpecEmpty (animal : Json) : String :=
  page
    (tmplOptSpecEmpty (jsGetProp animal "animalName") ++ " (" ++
      tmplOptSpecEmpty (jsGetProp animal "variant") ++ ")")
    ("
                <h1>" ++ tmplOptSpecEmpty (jsGetProp animal "animalName") ++
      " <small class=\"muted\">(" ++ tmplOptSpecEmpty (jsGetProp animal "variant") ++ ")</small></h1>
                <p><img width=\"300\" src=\"" ++ tmplOptSpecEmpty (jsGetProp animal "urlImage") ++
      "\" alt=\"" ++ tmplOptSpecEmpty (jsGetProp animal "animalName") ++ "\"></p>
                <p><a href=\"/\">Volver</a></p>")

/-- The success page for a record whose `animalName` property is
absent: both name slots carry the literal text `undefined`; the
variant and image-URL slots render as usual. -/
def animalSuccessPageNameUndef (animal : Json) : String :=
  page
    ("undefined" ++ " (" ++ tmplOpt (jsGetProp animal "variant") ++ ")")
    ("
                <h1>" ++ "undefined" ++
      " <small class=\"muted\">(" ++ tmplOpt (jsGetProp animal "variant") ++ ")</small></h1>
                <p><img width=\"300\" src=\"" ++ tmplOpt (jsGetProp animal "urlImage") ++
      "\" alt=\"" ++ "undefined" ++ "\"></p>
                <p><a href=\"/\">Volver</a></p>")

/-- The success page for a record whose `urlImage` property is absent:
the image-source slot carries the literal text `undefined`; the name
and variant slots render as usual. -/
def animalSuccessPageUrlUndef (animal : Json) : String :=
  page
    (tmplOpt (jsGetProp animal "animalName") ++ " (" ++
      tmplOpt (jsGetProp animal "variant") ++ ")")
    ("
                <h1>" ++ tmplOpt (jsGetProp animal "animalName") ++
      " <small class=\"muted\">(" ++ tmplOpt (jsGetProp animal "variant") ++ ")</small></h1>
                <p><img width=\"300\" src=\"" ++ "undefined" ++
      "\" alt=\"" ++ tmplOpt (jsGetProp animal "animalName") ++ "\"></p>
                <p><a href=\"/\">Volver</a></p>")

/-! ## Concrete fixtures for closed checks -/

/-- A well-formed animal record. -/
def whaleAnimal : Json :=
  .obj [("variant", .str "Navy"), ("animalName", .str "Whale"),
        ("urlImage", .str "https://example.com/whale.jpg")]

/-- An animal record carrying only its `variant` field. -/
def bareNavyAnimal : Json := .obj [("variant", .str "Navy")]

/-- An animal record for a different variant. -/
def forestAnimal : Json :=
  .obj [("variant", .str "Forest"), ("animalName", .str "Deer")]

/-- A second record matching the Navy variant. -/
def sharkAnimal : Json :=
  .obj [("variant", .str "Navy"), ("animalName", .str "Shark")]

/-- A Navy record missing only its `animalName` field. -/
def noNameAnimal : Json :=
  .obj [("variant", .str "Navy"),
        ("urlImage", .str "https://example.com/whale.jpg")]

/-- A Navy record missing only its `urlImage` field. -/
def noUrlAnimal : Json :=
  .obj [("variant", .str "Navy"), ("animalName", .str "Whale")]

/-- A fixed random draw. -/
def idx0 : Fin colors.length := ⟨0, by decide⟩

/-! ## Helper lemmas -/

/-- Conversion `Char.ofNat` round-trips on BMP code points below the surrogates. -/
theorem char_toNat_ofNat {n : Nat} (h : n < 0xD800) :
    (Char.ofNat n).toNat = n := by
  rw [Char.ofNat, dif_pos (Or.inl h)]
  rfl

/-- Lowering a character does not change whether `trim` strips it. -/
theorem isJsWs_jsToLowerChar (c : Char) :
    isJsWs (jsToLowerChar c) = isJsWs c := by
  unfold jsToLowerChar
  by_cases h : 65 ≤ c.toNat ∧ c.toNat ≤ 90
  · rw [if_pos h]
    have h32 : (Char.ofNat (c.toNat + 32)).toNat = c.toNat + 32 :=
      char_toNat_ofNat (by omega)
    unfold isJsWs
    rw [h32]
    have hl : ¬ (c.toNat + 32 ∈ wsCodes) := by simp [wsCodes]; omega
    have hr : ¬ (c.toNat ∈ wsCodes) := by simp [wsCodes]; omega
    simp [hl, hr]
  · rw [if_neg h]

/-- Dropping with `dropWhile` is the identity on a list with no character satisfying
the predicate. -/
theorem dropWhile_eq_self_of_all_not {p : Char → Bool} {l : List Char}
    (h : ∀ c ∈ l, p c = false) : l.dropWhile p = l := by
  cases l with
  | nil => rfl
  | cons a as => simp [List.dropWhile_cons, h a (by simp)]

/-- Trimming is the identity on a string with no JS whitespace. -/
theorem jsTrim_eq_self {s : String}
    (h : ∀ c ∈ s.toList, isJsWs c = false) : jsTrim s = s := by
  unfold jsTrim
  rw [dropWhile_eq_self_of_all_not h,
    dropWhile_eq_self_of_all_not (fun c hc => h c (List.mem_reverse.mp hc)),
    List.reverse_reverse]
  cases s
  rfl

/-- Dropping with `dropWhile` empties a list whose members all satisfy the predicate. -/
theorem dropWhile_eq_nil_of_all {p : Char → Bool} :
    ∀ {l : List Char}, (∀ c ∈ l, p c = true) → l.dropWhile p = []
  | [], _ => rfl
  | a :: _, h => by
    rw [List.dropWhile_cons, if_pos (h a (by simp))]
    exact dropWhile_eq_nil_of_all (fun c hc => h c (by simp [hc]))

/-- Trimming empties a string made only of JS whitespace. -/
theorem jsTrim_eq_empty_of_all_ws {s : String}
    (h : ∀ c ∈ s.toList, isJsWs c = true) : jsTrim s = "" := by
  unfold jsTrim
  rw [dropWhile_eq_nil_of_all h]
  rfl

/-- The `/get-animal` branch of the handler, with the leading route
dispatch discharged. -/
theorem handle_get_animal_eq (q : QueryVal) (f : FileOutcome)
    (r : Fin colors.length) :
    handle ⟨"GET", "/get-animal", q⟩ f r =
      (if normalizeVariant q = "" then
        sendHtml (page "Falta parámetro" missingVariantBody) 400
      else
        match findAnimalByVariant f (normalizeVariant q) with
        | .error msg => sendHtml (page "Error del servidor" (animalErrorBody msg)) 500
        | .ok none =>
          sendHtml (page "No encontrado" (animalNotFoundBody (normalizeVariant q))) 404
        | .ok (some animal) =>
          sendHtml (page (animalTitle animal) (animalSuccessBody animal)) 200) := rfl

/-- The `/color` branch of the handler, with the leading route dispatch
discharged. -/
theorem handle_color_eq (q : QueryVal) (f : FileOutcome)
    (r : Fin colors.length) :
    handle ⟨"GET", "/color", q⟩ f r =
      (if normalizeVariant q ≠ "" then
        sendHtml
          (colorFragment
            (match colors.find? (fun c : Color => eqCi c.variant (normalizeVariant q)) with
              | some found => found
              | none => getRandomColor r).hex) 200
      else
        sendHtml (colorFragment (getRandomColor r).hex) 200) := rfl

/-- Conversion `toList` commutes with lowering. -/
theorem jsToLower_toList (s : String) :
    (jsToLower s).toList = s.toList.map jsToLowerChar := rfl

/-- A string whose lowering has no JS whitespace has none itself. -/
theorem no_ws_of_jsToLower (s : String)
    (h : ∀ c ∈ (jsToLower s).toList, isJsWs c = false) :
    ∀ c ∈ s.toList, isJsWs c = false := by
  intro c hc
  have hm : jsToLowerChar c ∈ (jsToLower s).toList := by
    rw [jsToLower_toList]
    exact List.mem_map_of_mem _ hc
  have hl := h _ hm
  rwa [isJsWs_jsToLowerChar] at hl

/-- Scanning the registry with any query that lowers to `navy` finds the
Navy entry. -/
theorem find_navy {s : String} (hlow : jsToLower s = "navy") :
    colors.find? (fun c : Color => eqCi c.variant s) =
      some ⟨"Navy", "#000080"⟩ := by
  have e : (fun c : Color => eqCi c.variant s) =
      (fun c : Color => jsToLower c.variant == "navy") := by
    funext c
    unfold eqCi
    rw [hlow]
  rw [e]
  decide

/-- C2: every GET request to `/color` — `variant` absent, matching, or
unmatched — yields status 200 with body exactly the HTML fragment
`<p style="color:HEX">HEX</p>` for the hex code of some registry entry;
no error response is possible. -/
theorem c2_color_always_registry_fragment (q : QueryVal) (f : FileOutcome)
    (r : Fin colors.length) :
    ∃ c ∈ colors, handle ⟨"GET", "/color", q⟩ f r =
      ⟨200, "text/html; charset=utf-8", colorFragment c.hex⟩ := by
  rw [handle_color_eq]
  by_cases h : normalizeVariant q = ""
  · refine ⟨getRandomColor r, List.get_mem _ _ _, ?_⟩
    rw [if_neg (not_not_intro h)]
    rfl
  · cases hf : colors.find? (fun c : Color => eqCi c.variant (normalizeVariant q)) with
    | some c =>
      exact ⟨c, List.mem_of_find?_eq_some hf, by rw [if_pos h]; rfl⟩
    | none =>
      exact ⟨getRandomColor r, List.get_mem _ _ _, by rw [if_pos h]; rfl⟩

/-- C3: a GET request to `/color` whose `variant` equals `Navy`
case-insensitively returns the fixed hex code `#000080`. -/
theorem c3_color_navy_case_insensitive (s : String)
    (h : eqCi s "Navy" = true) (f : FileOutcome) (r : Fin colors.length) :
    handle ⟨"GET", "/color", .one s⟩ f r =
      ⟨200, "text/html; charset=utf-8", colorFragment "#000080"⟩ := by
  have h' : (jsToLower s == jsToLower "Navy") = true := h
  have hlow : jsToLower s = "navy" := eq_of_beq h'
  have hnws : ∀ c ∈ s.toList, isJsWs c = false :=
    no_ws_of_jsToLower s (by rw [hlow]; decide)
  have htrim : jsTrim s = s := jsTrim_eq_self hnws
  have hne : s ≠ "" := by
    intro he
    rw [he] at hlow
    exact absurd hlow (by decide)
  have hnorm : normalizeVariant (.one s) = s := htrim
  rw [handle_color_eq, hnorm, if_pos hne, find_navy hlow]
  rfl

/-- C3 witness: `variant=nAvY` concretely returns `#000080`. -/
theorem c3_witness :
    eqCi "nAvY" "Navy" = true ∧
    handle ⟨"GET", "/color", .one "nAvY"⟩ (.parsed .null) idx0 =
      ⟨200, "text/html; charset=utf-8", colorFragment "#000080"⟩ :=
  ⟨by decide, c3_color_navy_case_insensitive "nAvY" (by decide) (.parsed .null) idx0⟩

/-- C4: any request whose method is not GET gets the plain-text 405
response, whatever the path, query, file contents and random draw — no
route handler runs. -/
theorem c4_non_get_method_not_allowed (m p : String) (q : QueryVal)
    (f : FileOutcome) (r : Fin colors.length) (h : m ≠ "GET") :
    handle ⟨m, p, q⟩ f r =
      ⟨405, "text/plain; charset=utf-8", "Method Not Allowed"⟩ := by
  simp [handle, h, sendText]

/-- C4 witness: a concrete POST request gets the 405 response. -/
theorem c4_witness :
    ("POST" : String) ≠ "GET" ∧
    handle ⟨"POST", "/color", .absent⟩ (.parsed .null) idx0 =
      ⟨405, "text/plain; charset=utf-8", "Method Not Allowed"⟩ :=
  ⟨by decide,
   c4_non_get_method_not_allowed "POST" "/color" .absent (.parsed .null) idx0
     (by decide)⟩

/-- C8: the `/get-animal` handler is deterministic given the file
contents — the random draw, the only per-request nondeterminism, does
not flow into this route, so two identical requests against the same
file contents produce identical bodies. -/
theorem c8_get_animal_deterministic (q : QueryVal) (f : FileOutcome)
    (r₁ r₂ : Fin colors.length) :
    (handle ⟨"GET", "/get-animal", q⟩ f r₁).body =
      (handle ⟨"GET", "/get-animal", q⟩ f r₂).body := by
  rw [handle_get_animal_eq, handle_get_animal_eq]

/-- C10: a repeated `variant` key is coerced to the comma-joined string
`Navy,Navy`, which matches no registry entry, so the random branch
answers. -/
theorem c10_repeated_variant_comma_join (f : FileOutcome)
    (r : Fin colors.length) :
    normalizeVariant (.many ["Navy", "Navy"]) = "Navy,Navy" ∧
    colors.find? (fun c : Color => eqCi c.variant "Navy,Navy") = none ∧
    handle ⟨"GET", "/color", .many ["Navy", "Navy"]⟩ f r =
      ⟨200, "text/html; charset=utf-8", colorFragment (getRandomColor r).hex⟩ := by
  have hnn : normalizeVariant (.many ["Navy", "Navy"]) = "Navy,Navy" := rfl
  have hfind : colors.find? (fun c : Color => eqCi c.variant "Navy,Navy") = none := by
    decide
  refine ⟨hnn, hfind, ?_⟩
  rw [handle_color_eq, hnn, if_pos (by decide : ("Navy,Navy" : String) ≠ ""), hfind]
  rfl

/-- Searching with `find?` over a split list returns the marked element when nothing
before it matches. -/
theorem find?_first {α : Type} {p : α → Bool} :
    ∀ (l₁ : List α) (a : α) (l₂ : List α),
      (∀ b ∈ l₁, p b = false) → p a = true →
      (l₁ ++ a :: l₂).find? p = some a
  | [], a, l₂, _, h₂ => by
    simp [List.find?_cons_of_pos, h₂]
  | b :: bs, a, l₂, h₁, h₂ => by
    rw [List.cons_append, List.find?_cons_of_neg _ (by simp [h₁ b (by simp)])]
    exact find?_first bs a l₂ (fun c hc => h₁ c (by simp [hc])) h₂

/-- C5: a parsed animals file that is valid JSON but not an array makes
the lookup return NotFound, so `/get-animal` answers 404, not 500. -/
theorem c5_non_array_parse_not_found (j : Json) (hj : j.isArr = false)
    (q : QueryVal) (hq : normalizeVariant q ≠ "") (r : Fin colors.length) :
    findAnimalByVariant (.parsed j) (normalizeVariant q) = .ok none ∧
    (handle ⟨"GET", "/get-animal", q⟩ (.parsed j) r).status = 404 := by
  have hfind : findAnimalByVariant (.parsed j) (normalizeVariant q) = .ok none := by
    simp only [findAnimalByVariant, hj]
    rfl
  refine ⟨hfind, ?_⟩
  rw [handle_get_animal_eq, if_neg hq, hfind]
  rfl

/-- C5 witness: a parsed JSON object (not an array) concretely yields
NotFound and a 404 status. -/
theorem c5_witness :
    (Json.obj []).isArr = false ∧ normalizeVariant (.one "Navy") ≠ "" ∧
    (findAnimalByVariant (.parsed (.obj [])) (normalizeVariant (.one "Navy")) = .ok none ∧
      (handle ⟨"GET", "/get-animal", .one "Navy"⟩ (.parsed (.obj [])) idx0).status = 404) :=
  ⟨rfl, by decide,
   c5_non_array_parse_not_found (.obj []) rfl (.one "Navy") (by decide) idx0⟩

/-- C6: with several records matching the queried variant
case-insensitively, the lookup returns the first match in array
order. -/
theorem c6_first_match_wins (l₁ l₂ : List Json) (a : Json) (v : String)
    (h₁ : ∀ b ∈ l₁, matchesVariant v b = false)
    (h₂ : matchesVariant v a = true) :
    findAnimalByVariant (.parsed (.arr (l₁ ++ a :: l₂))) v = .ok (some a) := by
  have hred : findAnimalByVariant (.parsed (.arr (l₁ ++ a :: l₂))) v =
      .ok ((l₁ ++ a :: l₂).find? (matchesVariant v)) := rfl
  rw [hred, find?_first l₁ a l₂ h₁ h₂]

/-- C6 witness: with two Navy records in the file, the earlier one is
returned. -/
theorem c6_witness :
    (∀ b ∈ [forestAnimal], matchesVariant "navy" b = false) ∧
    matchesVariant "navy" whaleAnimal = true ∧
    findAnimalByVariant
        (.parsed (.arr ([forestAnimal] ++ whaleAnimal :: [sharkAnimal]))) "navy" =
      .ok (some whaleAnimal) :=
  ⟨by decide, by decide,
   c6_first_match_wins [forestAnimal] [sharkAnimal] whaleAnimal "navy"
     (by decide) (by decide)⟩

/-- C9: a present but whitespace-only `variant` trims to the empty
string and is handled exactly like an absent one: `/get-animal` answers
400 and `/color` takes the no-variant random branch. -/
theorem c9_whitespace_variant_missing (s : String) (_hne : s ≠ "")
    (hws : ∀ c ∈ s.toList, isJsWs c = true) (f : FileOutcome)
    (r : Fin colors.length) :
    handle ⟨"GET", "/get-animal", .one s⟩ f r =
      handle ⟨"GET", "/get-animal", .absent⟩ f r ∧
    (handle ⟨"GET", "/get-animal", .one s⟩ f r).status = 400 ∧
    handle ⟨"GET", "/color", .one s⟩ f r =
      handle ⟨"GET", "/color", .absent⟩ f r := by
  have htrim : normalizeVariant (.one s) = "" := jsTrim_eq_empty_of_all_ws hws
  have habs : normalizeVariant QueryVal.absent = "" := rfl
  refine ⟨?_, ?_, ?_⟩
  · rw [handle_get_animal_eq, handle_get_animal_eq, htrim, habs]
  · rw [handle_get_animal_eq, htrim, if_pos rfl]
    rfl
  · rw [handle_color_eq, handle_color_eq, htrim, habs]

/-- C9 witness: a single space as `variant` concretely yields the 400
missing-parameter response. -/
theorem c9_witness :
    (" " : String) ≠ "" ∧ (∀ c ∈ (" " : String).toList, isJsWs c = true) ∧
    (handle ⟨"GET", "/get-animal", .one " "⟩ (.parsed .null) idx0).status = 400 :=
  ⟨by decide, by decide,
   (c9_whitespace_variant_missing " " (by decide) (by decide)
     (.parsed .null) idx0).2.1⟩

/-- C1 counterexample: the claim's middle case fails as stated — here
`variant` is present (a single space) and matches no record of the
file, yet the status is 400, not 404, because the value trims to the
empty string and is treated as missing. -/
theorem c1_counterexample :
    (∀ b ∈ ([] : List Json), matchesVariant " " b = false) ∧
    (handle ⟨"GET", "/get-animal", .one " "⟩ (.parsed (.arr [])) idx0).status = 400 ∧
    (handle ⟨"GET", "/get-animal", .one " "⟩ (.parsed (.arr [])) idx0).status ≠ 404 := by
  refine ⟨by simp, rfl, by decide⟩

/-- C1 (amended): on GET `/get-animal`, a missing variant — or one that
trims to empty — gives 400; a variant nonempty after trimming with no
matching record gives 404; a match gives 200 with the record's animal
name and image URL in the body. -/
theorem c1_get_animal_route (q : QueryVal) (f : FileOutcome)
    (r : Fin colors.length) :
    (normalizeVariant q = "" →
      (handle ⟨"GET", "/get-animal", q⟩ f r).status = 400) ∧
    (normalizeVariant q ≠ "" →
      findAnimalByVariant f (normalizeVariant q) = .ok none →
      (handle ⟨"GET", "/get-animal", q⟩ f r).status = 404) ∧
    (∀ a name urlI, normalizeVariant q ≠ "" →
      findAnimalByVariant f (normalizeVariant q) = .ok (some a) →
      jsGetProp a "animalName" = some (.str name) →
      jsGetProp a "urlImage" = some (.str urlI) →
      (handle ⟨"GET", "/get-animal", q⟩ f r).status = 200 ∧
      containsSub (handle ⟨"GET", "/get-animal", q⟩ f r).body name ∧
      containsSub (handle ⟨"GET", "/get-animal", q⟩ f r).body urlI) := by
  refine ⟨?_, ?_, ?_⟩
  · intro h
    rw [handle_get_animal_eq, if_pos h]
    rfl
  · intro h hf
    rw [handle_get_animal_eq, if_neg h, hf]
    rfl
  · intro a name urlI h hf hn hu
    have hb : handle ⟨"GET", "/get-animal", q⟩ f r =
        sendHtml (page (animalTitle a) (animalSuccessBody a)) 200 := by
      rw [handle_get_animal_eq, if_neg h, hf]
    rw [hb]
    refine ⟨rfl, ?_, ?_⟩
    · refine ⟨pageHead,
        " (" ++ tmplOpt (jsGetProp a "variant") ++ ")" ++ pageMid ++
          animalSuccessBody a ++ pageTail, ?_⟩
      simp only [sendHtml, page, animalTitle, hn, tmplOpt, jsString,
        String.append_assoc]
    · refine ⟨pageHead ++ animalTitle a ++ pageMid ++
        "\n                <h1>" ++ tmplOpt (jsGetProp a "animalName") ++
        " <small class=\"muted\">(" ++ tmplOpt (jsGetProp a "variant") ++
        ")</small></h1>\n                <p><img width=\"300\" src=\"",
        "\" alt=\"" ++ tmplOpt (jsGetProp a "animalName") ++
        "\"></p>\n                <p><a href=\"/\">Volver</a></p>" ++ pageTail, ?_⟩
      simp only [sendHtml, page, animalSuccessBody, hu, tmplOpt, jsString,
        String.append_assoc]

/-- C1 witness: the three branches at concrete inputs — absent variant
gives 400, unmatched variant gives 404, matched variant gives 200 with
the record's name and URL in the body. -/
theorem c1_witness :
    (handle ⟨"GET", "/get-animal", .absent⟩ (.parsed (.arr [])) idx0).status = 400 ∧
    (handle ⟨"GET", "/get-animal", .one "Dragon"⟩ (.parsed (.arr [])) idx0).status = 404 ∧
    ((handle ⟨"GET", "/get-animal", .one "Navy"⟩ (.parsed (.arr [whaleAnimal])) idx0).status = 200 ∧
      containsSub (handle ⟨"GET", "/get-animal", .one "Navy"⟩
        (.parsed (.arr [whaleAnimal])) idx0).body "Whale" ∧
      containsSub (handle ⟨"GET", "/get-animal", .one "Navy"⟩
        (.parsed (.arr [whaleAnimal])) idx0).body "https://example.com/whale.jpg") :=
  ⟨(c1_get_animal_route .absent (.parsed (.arr [])) idx0).1 rfl,
   (c1_get_animal_route (.one "Dragon") (.parsed (.arr [])) idx0).2.1
     (by decide) rfl,
   (c1_get_animal_route (.one "Navy") (.parsed (.arr [whaleAnimal])) idx0).2.2
     whaleAnimal "Whale" "https://example.com/whale.jpg"
     (by decide) rfl rfl rfl⟩

/-- C7 counterexample: for a matched record with no `animalName` and no
`urlImage`, the success page does render (status 200) but its body is
not the spec's empty-field rendering — the absent fields are not
rendered as empty strings. -/
theorem c7_counterexample :
    (handle ⟨"GET", "/get-animal", .one "Navy"⟩
      (.parsed (.arr [bareNavyAnimal])) idx0).status = 200 ∧
    (handle ⟨"GET", "/get-animal", .one "Navy"⟩
      (.parsed (.arr [bareNavyAnimal])) idx0).body ≠
        animalSuccessPageSpecEmpty bareNavyAnimal := by
  refine ⟨rfl, by decide⟩

/-- C7 (amended): a matched record missing `animalName` or `urlImage`
(or both) still renders with status 200 — no failure — and each absent
field renders as the literal text `undefined`, the template-literal
interpolation of a missing property, rather than as an empty string;
the fields that are present render as usual. -/
theorem c7_missing_fields_render_undefined (q : QueryVal) (f : FileOutcome)
    (r : Fin colors.length) (a : Json)
    (hq : normalizeVariant q ≠ "")
    (hf : findAnimalByVariant f (normalizeVariant q) = .ok (some a))
    (_hmiss : jsGetProp a "animalName" = none ∨ jsGetProp a "urlImage" = none) :
    (handle ⟨"GET", "/get-animal", q⟩ f r).status = 200 ∧
    (jsGetProp a "animalName" = none →
      (handle ⟨"GET", "/get-animal", q⟩ f r).body =
        animalSuccessPageNameUndef a) ∧
    (jsGetProp a "urlImage" = none →
      (handle ⟨"GET", "/get-animal", q⟩ f r).body =
        animalSuccessPageUrlUndef a) := by
  have hb : handle ⟨"GET", "/get-animal", q⟩ f r =
      sendHtml (page (animalTitle a) (animalSuccessBody a)) 200 := by
    rw [handle_get_animal_eq, if_neg hq, hf]
  refine ⟨by rw [hb]; rfl, ?_, ?_⟩
  · intro hn
    rw [hb]
    simp only [sendHtml, animalSuccessPageNameUndef, page, animalTitle,
      animalSuccessBody, hn, tmplOpt]
  · intro hu
    rw [hb]
    simp only [sendHtml, animalSuccessPageUrlUndef, page, animalTitle,
      animalSuccessBody, hu, tmplOpt]

/-- C7 witness: a record missing only `animalName` and a record missing
only `urlImage` each concretely render with status 200 and the literal
text `undefined` in the absent slot. -/
theorem c7_witness :
    normalizeVariant (.one "Navy") ≠ "" ∧
    ((handle ⟨"GET", "/get-animal", .one "Navy"⟩
        (.parsed (.arr [noNameAnimal])) idx0).status = 200 ∧
      (handle ⟨"GET", "/get-animal", .one "Navy"⟩
        (.parsed (.arr [noNameAnimal])) idx0).body =
          animalSuccessPageNameUndef noNameAnimal) ∧
    ((handle ⟨"GET", "/get-animal", .one "Navy"⟩
        (.parsed (.arr [noUrlAnimal])) idx0).status = 200 ∧
      (handle ⟨"GET", "/get-animal", .one "Navy"⟩
        (.parsed (.arr [noUrlAnimal])) idx0).body =
          animalSuccessPageUrlUndef noUrlAnimal) :=
  ⟨by decide,
   ⟨(c7_missing_fields_render_undefined (.one "Navy")
       (.parsed (.arr [noNameAnimal])) idx0 noNameAnimal
       (by decide) rfl (Or.inl rfl)).1,
    (c7_missing_fields_render_undefined (.one "Navy")
       (.parsed (.arr [noNameAnimal])) idx0 noNameAnimal
       (by decide) rfl (Or.inl rfl)).2.1 rfl⟩,
   ⟨(c7_missing_fields_render_undefined (.one "Navy")
       (.parsed (.arr [noUrlAnimal])) idx0 noUrlAnimal
       (by decide) rfl (Or.inr rfl)).1,
    (c7_missing_fields_render_undefined (.one "Navy")
       (.parsed (.arr [noUrlAnimal])) idx0 noUrlAnimal
       (by decide) rfl (Or.inr rfl)).2.2 rfl⟩⟩
